import Mathlib

/-!
Shallow embedding of the Hamiltonian-reduction notebook
(`tutorials/chemistry/1_programmatic_approach.ipynb`).

The notebook's only original logic is the freeze/remove index
normalization and the conditional reduction pipeline; the chemistry
driver, the fermionic-operator library, the qubit mapping and the two
eigensolvers are external library calls.  We embed the notebook's own
code exactly (Python `%` on ints with a positive modulus is `Int.emod`),
and keep the library calls as abstract function parameters; a trace of
invoked library calls records which calls are made and in which order.
-/

/-- Normalization of a single raw orbital index, `x % molecule.num_orbitals`
in the notebook.  Python's `%` with a positive modulus agrees with
`Int.emod`. -/
def normIdx (x num_orbitals : Int) : Int := x % num_orbitals

/-- Index normalization of the notebook's cell 7 (the five list-rewriting
lines), as a function of the raw `freeze_list`, the raw `remove_list` and
`molecule.num_orbitals`:

* `remove_list = [x % molecule.num_orbitals for x in remove_list]`
* `freeze_list = [x % molecule.num_orbitals for x in freeze_list]`
* `remove_list = [x - len(freeze_list) for x in remove_list]`
* `remove_list += [x + molecule.num_orbitals - len(freeze_list) for x in remove_list]`
* `freeze_list += [x + molecule.num_orbitals for x in freeze_list]`

It returns the final `(freeze_list, remove_list)` pair. -/
def normalizeLists (freeze_list remove_list : List Int) (num_orbitals : Int) :
    List Int × List Int :=
  let remove_list := remove_list.map (fun x => normIdx x num_orbitals)
  let freeze_list := freeze_list.map (fun x => normIdx x num_orbitals)
  let remove_list := remove_list.map (fun x => x - (freeze_list.length : Int))
  let remove_list :=
    remove_list ++ remove_list.map (fun x => x + num_orbitals - (freeze_list.length : Int))
  let freeze_list := freeze_list ++ freeze_list.map (fun x => x + num_orbitals)
  (freeze_list, remove_list)

/-- A delegated library call made by the notebook, recorded in a trace. -/
inductive LibCall where
  | freezing (indices : List Int)
  | elimination (indices : List Int)
  | mapping (map_type : String)
  | twoQubitReduction (num_particles : Int)
  deriving DecidableEq, Repr

/-- The in-memory variables threaded through the reduction pipeline,
together with the trace of library calls made so far.  `Op` is the
(opaque) type of the library's fermionic operators. -/
structure ChemState (Op : Type) where
  ferOp : Op
  energy_shift : ℚ
  num_spin_orbitals : Int
  num_particles : Int
  calls : List LibCall
  deriving Repr

/-- State right before the reduction pipeline: the notebook sets
`energy_shift = 0.0` and has made no reduction library call yet. -/
def initState {Op : Type} (ferOp : Op) (num_spin_orbitals num_particles : Int) :
    ChemState Op :=
  { ferOp := ferOp
    energy_shift := 0
    num_spin_orbitals := num_spin_orbitals
    num_particles := num_particles
    calls := [] }

/-- The freezing stage of the pipeline:

```
if len(freeze_list) > 0:
    ferOp, energy_shift = ferOp.fermion_mode_freezing(freeze_list)
    num_spin_orbitals -= len(freeze_list)
    num_particles -= len(freeze_list)
```

`fermion_mode_freezing` is the library function, abstract here. -/
def freezeStage {Op : Type} (fermion_mode_freezing : Op → List Int → Op × ℚ)
    (freeze_list : List Int) (s : ChemState Op) : ChemState Op :=
  if freeze_list.length > 0 then
    { ferOp := (fermion_mode_freezing s.ferOp freeze_list).1
      energy_shift := (fermion_mode_freezing s.ferOp freeze_list).2
      num_spin_orbitals := s.num_spin_orbitals - (freeze_list.length : Int)
      num_particles := s.num_particles - (freeze_list.length : Int)
      calls := s.calls ++ [LibCall.freezing freeze_list] }
  else s

/-- The elimination stage of the pipeline:

```
if len(remove_list) > 0:
    ferOp = ferOp.fermion_mode_elimination(remove_list)
    num_spin_orbitals -= len(remove_list)
```

`fermion_mode_elimination` is the library function, abstract here. -/
def elimStage {Op : Type} (fermion_mode_elimination : Op → List Int → Op)
    (remove_list : List Int) (s : ChemState Op) : ChemState Op :=
  if remove_list.length > 0 then
    { s with
        ferOp := fermion_mode_elimination s.ferOp remove_list
        num_spin_orbitals := s.num_spin_orbitals - (remove_list.length : Int)
        calls := s.calls ++ [LibCall.elimination remove_list] }
  else s

/-- The reduction pipeline: freezing first, then elimination, exactly as
the two `if` blocks appear in the notebook. -/
def reductionPipeline {Op : Type} (fermion_mode_freezing : Op → List Int → Op × ℚ)
    (fermion_mode_elimination : Op → List Int → Op)
    (freeze_list remove_list : List Int) (s : ChemState Op) : ChemState Op :=
  elimStage fermion_mode_elimination remove_list
    (freezeStage fermion_mode_freezing freeze_list s)

/-- C1: after applying mode freezing with `freeze_list` and then mode
elimination with `remove_list`, `num_spin_orbitals` is reduced by exactly
`len(freeze_list) + len(remove_list)` relative to its initial value; for
the notebook's configuration (freeze `[0]`, remove `[-3, -2]`, 6 spatial
orbitals, hence 12 spin orbitals) it becomes 6. -/
theorem spin_orbital_count_reduction :
    (∀ (Op : Type) (fermion_mode_freezing : Op → List Int → Op × ℚ)
        (fermion_mode_elimination : Op → List Int → Op)
        (freeze_list remove_list : List Int) (s : ChemState Op),
      (reductionPipeline fermion_mode_freezing fermion_mode_elimination
          freeze_list remove_list s).num_spin_orbitals =
        s.num_spin_orbitals -
          ((freeze_list.length : Int) + (remove_list.length : Int))) ∧
    (reductionPipeline (fun op _ => (op, 0)) (fun op _ => op)
        (normalizeLists [0] [-3, -2] 6).1 (normalizeLists [0] [-3, -2] 6).2
        (initState () 12 4)).num_spin_orbitals = 6 := by
  constructor
  · intro Op fmf fme freeze_list remove_list s
    unfold reductionPipeline elimStage freezeStage
    rcases Nat.eq_zero_or_pos freeze_list.length with hf | hf <;>
      rcases Nat.eq_zero_or_pos remove_list.length with hr | hr <;>
      (simp [hf, hr]; try omega)
  · decide

/-- C2: index normalization maps a raw index `x` with
`-num_orbitals ≤ x < num_orbitals` to `x % num_orbitals`: a negative
index `x = -k` becomes `num_orbitals - k` (offset from end), and a
non-negative in-range index is unchanged. -/
theorem negative_index_normalization (x num_orbitals : Int)
    (hn : 0 < num_orbitals) (hlow : -num_orbitals ≤ x)
    (hhigh : x < num_orbitals) :
    normIdx x num_orbitals = if x < 0 then num_orbitals + x else x := by
  by_cases hx : x < 0
  · rw [if_pos hx]
    calc normIdx x num_orbitals = x % num_orbitals := rfl
      _ = (x + num_orbitals * 1) % num_orbitals :=
            (Int.add_mul_emod_self_left x num_orbitals 1).symm
      _ = x + num_orbitals := by
            rw [mul_one]; exact Int.emod_eq_of_lt (by omega) (by omega)
      _ = num_orbitals + x := by ring
  · rw [if_neg hx]
    exact Int.emod_eq_of_lt (by omega) hhigh

/-- Witness for C2 at the notebook's inputs: the raw remove index `-3`
with 6 orbitals normalizes to `6 + (-3) = 3`. -/
theorem negative_index_normalization_witness :
    normIdx (-3) 6 = if (-3 : Int) < 0 then 6 + (-3) else (-3) :=
  negative_index_normalization (-3) 6 (by decide) (by decide) (by decide)

/-- C3: index normalization is a deterministic pure function: any two
runs on `freeze_list = [0]`, `remove_list = [-3, -2]`, `num_orbitals = 6`
produce the same output, namely the final spin-mirrored lists
`freeze_list = [0, 6]` and `remove_list = [2, 3, 7, 8]`. -/
theorem normalization_deterministic (out1 out2 : List Int × List Int)
    (h1 : out1 = normalizeLists [0] [-3, -2] 6)
    (h2 : out2 = normalizeLists [0] [-3, -2] 6) :
    out1 = out2 ∧ out1 = ([0, 6], [2, 3, 7, 8]) := by
  subst h1; subst h2
  exact ⟨rfl, by decide⟩

/-- Witness for C3: two literal runs of the normalization coincide. -/
theorem normalization_deterministic_witness :
    normalizeLists [0] [-3, -2] 6 = normalizeLists [0] [-3, -2] 6 ∧
      normalizeLists [0] [-3, -2] 6 = ([0, 6], [2, 3, 7, 8]) :=
  normalization_deterministic _ _ rfl rfl

/-- C4: the pipeline applies mode freezing before mode elimination (the
freezing call precedes the elimination call in the trace), and the
normalized remove indices are expressed relative to the post-freeze
orbital numbering: each mod-normalized remove index is shifted down by
`len(freeze_list)`, and its spin mirror is obtained by adding the
post-freeze sector size `num_orbitals - len(freeze_list)`. -/
theorem freezing_precedes_elimination
    {Op : Type} (fermion_mode_freezing : Op → List Int → Op × ℚ)
    (fermion_mode_elimination : Op → List Int → Op)
    (freeze_list remove_list raw_freeze raw_remove : List Int)
    (num_orbitals : Int) (s : ChemState Op)
    (hf : freeze_list.length > 0) (hr : remove_list.length > 0) :
    (reductionPipeline fermion_mode_freezing fermion_mode_elimination
        freeze_list remove_list s).calls =
      s.calls ++ [LibCall.freezing freeze_list,
                  LibCall.elimination remove_list] ∧
    (normalizeLists raw_freeze raw_remove num_orbitals).2 =
      raw_remove.map
          (fun x => normIdx x num_orbitals - (raw_freeze.length : Int)) ++
        raw_remove.map
          (fun x => (normIdx x num_orbitals - (raw_freeze.length : Int)) +
            (num_orbitals - (raw_freeze.length : Int))) := by
  constructor
  · unfold reductionPipeline elimStage freezeStage
    simp [hf, hr]
  · simp only [normalizeLists, List.map_map, List.length_map]
    refine congrArg₂ (· ++ ·) rfl ?_
    refine List.map_congr_left ?_
    intro a _
    simp only [Function.comp_apply]
    ring

/-- Witness for C4: the notebook's configuration, with the pipeline run
on the normalized lists and the normalization of the raw lists
`freeze_list = [0]`, `remove_list = [-3, -2]`, `num_orbitals = 6`. -/
theorem freezing_precedes_elimination_witness :
    (reductionPipeline (fun op _ => (op, 0)) (fun op _ => op)
        [0, 6] [2, 3, 7, 8] (initState () 12 4)).calls =
      [] ++ [LibCall.freezing [0, 6], LibCall.elimination [2, 3, 7, 8]] ∧
    (normalizeLists [0] [-3, -2] 6).2 =
      [-3, -2].map (fun x => normIdx x 6 - ((1 : Nat) : Int)) ++
        [-3, -2].map
          (fun x => (normIdx x 6 - ((1 : Nat) : Int)) +
            (6 - ((1 : Nat) : Int))) := by
  have h := freezing_precedes_elimination
    (fun (op : Unit) _ => (op, (0 : ℚ))) (fun op _ => op)
    [0, 6] [2, 3, 7, 8] [0] [-3, -2] 6 (initState () 12 4)
    (by decide) (by decide)
  simpa using h

/-- C5: empty index lists are no-ops: with an empty `freeze_list` the
freezing stage is the identity (no `fermion_mode_freezing` call is
recorded and every variable, `energy_shift` included, is unchanged); with
an empty `remove_list` the elimination stage is the identity; and the
whole pipeline run with an empty `freeze_list` from the initial state
leaves `energy_shift` at `0.0`. -/
theorem empty_lists_are_noops :
    (∀ (Op : Type) (fermion_mode_freezing : Op → List Int → Op × ℚ)
        (s : ChemState Op), freezeStage fermion_mode_freezing [] s = s) ∧
    (∀ (Op : Type) (fermion_mode_elimination : Op → List Int → Op)
        (s : ChemState Op), elimStage fermion_mode_elimination [] s = s) ∧
    (∀ (Op : Type) (fermion_mode_freezing : Op → List Int → Op × ℚ)
        (fermion_mode_elimination : Op → List Int → Op)
        (remove_list : List Int) (ferOp : Op)
        (num_spin_orbitals num_particles : Int),
      (reductionPipeline fermion_mode_freezing fermion_mode_elimination
          [] remove_list
          (initState ferOp num_spin_orbitals num_particles)).energy_shift
        = 0) := by
  refine ⟨?_, ?_, ?_⟩
  · intro Op fmf s
    simp [freezeStage]
  · intro Op fme s
    simp [elimStage]
  · intro Op fmf fme remove_list ferOp nso np
    unfold reductionPipeline elimStage freezeStage initState
    rcases Nat.eq_zero_or_pos remove_list.length with hr | hr <;> simp [hr]

/-- C9: freezing also reduces the particle count: the freezing stage
decrements `num_particles` by exactly `len(freeze_list)`, the
elimination stage leaves `num_particles` unchanged, and for the
notebook's configuration `num_particles` goes from 4 to 2. -/
theorem particle_count_reduction :
    (∀ (Op : Type) (fermion_mode_freezing : Op → List Int → Op × ℚ)
        (freeze_list : List Int) (s : ChemState Op),
      (freezeStage fermion_mode_freezing freeze_list s).num_particles =
        s.num_particles - (freeze_list.length : Int)) ∧
    (∀ (Op : Type) (fermion_mode_elimination : Op → List Int → Op)
        (remove_list : List Int) (s : ChemState Op),
      (elimStage fermion_mode_elimination remove_list s).num_particles =
        s.num_particles) ∧
    (reductionPipeline (fun op _ => (op, 0)) (fun op _ => op)
        (normalizeLists [0] [-3, -2] 6).1 (normalizeLists [0] [-3, -2] 6).2
        (initState () 12 4)).num_particles = 2 := by
  refine ⟨?_, ?_, by decide⟩
  · intro Op fmf freeze_list s
    unfold freezeStage
    rcases Nat.eq_zero_or_pos freeze_list.length with hf | hf <;> simp [hf]
  · intro Op fme remove_list s
    unfold elimStage
    rcases Nat.eq_zero_or_pos remove_list.length with hr | hr <;> simp [hr]

/-- Selection of the two-qubit symmetry reduction,
`qubit_reduction = True if map_type == 'parity' else False` in the
notebook. -/
def qubit_reduction (map_type : String) : Bool :=
  if map_type = "parity" then true else false

/-- The mapping stage of the notebook:

```
qubitOp = ferOp.mapping(map_type=map_type, threshold=0.00000001)
qubitOp = Z2Symmetries.two_qubit_reduction(qubitOp, num_particles) if qubit_reduction else qubitOp
```

`mappingLib` and `two_qubit_reduction` are the library functions,
abstract here; the result is the qubit operator before `chop` together
with the trace of mapping-stage library calls. -/
def mappingStage {FOp QOp : Type} (mappingLib : FOp → String → QOp)
    (two_qubit_reduction : QOp → Int → QOp)
    (map_type : String) (ferOp : FOp) (num_particles : Int) :
    QOp × List LibCall :=
  let qubitOp := mappingLib ferOp map_type
  if qubit_reduction map_type then
    (two_qubit_reduction qubitOp num_particles,
     [LibCall.mapping map_type, LibCall.twoQubitReduction num_particles])
  else
    (qubitOp, [LibCall.mapping map_type])

/-- C10: `qubit_reduction` is true exactly when the mapping type is
`parity`; `two_qubit_reduction` is invoked exactly when `qubit_reduction`
is true; and for any other mapping type the mapped qubit operator is
passed through unchanged before truncation. -/
theorem parity_selects_two_qubit_reduction
    {FOp QOp : Type} (mappingLib : FOp → String → QOp)
    (two_qubit_reduction : QOp → Int → QOp) (map_type : String)
    (ferOp : FOp) (num_particles : Int) :
    (qubit_reduction map_type = true ↔ map_type = "parity") ∧
    (LibCall.twoQubitReduction num_particles ∈
        (mappingStage mappingLib two_qubit_reduction map_type ferOp
          num_particles).2 ↔
      qubit_reduction map_type = true) ∧
    (qubit_reduction map_type = false →
      (mappingStage mappingLib two_qubit_reduction map_type ferOp
          num_particles).1 = mappingLib ferOp map_type) := by
  refine ⟨?_, ?_, ?_⟩
  · unfold qubit_reduction
    by_cases h : map_type = "parity" <;> simp [h]
  · unfold mappingStage
    by_cases h : qubit_reduction map_type <;> simp [h]
  · intro h
    unfold mappingStage
    simp [h]

/-- Witness for C10: with the `jordan_wigner` mapping type no reduction
is selected and the mapped operator is passed through unchanged. -/
theorem parity_selects_two_qubit_reduction_witness :
    (mappingStage (fun (_ : Unit) _ => (7 : Int)) (fun q _ => q + 1)
        "jordan_wigner" () 2).1 = 7 :=
  (parity_selects_two_qubit_reduction (fun (_ : Unit) _ => (7 : Int))
    (fun q _ => q + 1) "jordan_wigner" () 2).2.2 (by decide)

/-- Total ground-state energy as printed by the notebook:
`eigenvalue.real + energy_shift + nuclear_repulsion_energy`, for both the
exact eigensolver cell and the VQE cell. -/
def totalEnergy (eigenvalue energy_shift nuclear_repulsion_energy : ℚ) : ℚ :=
  eigenvalue + energy_shift + nuclear_repulsion_energy

/-- C8: both reported totals add the same `energy_shift` and
`nuclear_repulsion_energy` to the respective eigenvalue, so whenever the
exact eigenvalue is below the variational eigenvalue (the variational
principle guaranteed by the delegated solvers), the exact total energy is
below the VQE total energy. -/
theorem exact_total_le_vqe_total
    (exact_eigenvalue vqe_eigenvalue energy_shift
      nuclear_repulsion_energy : ℚ)
    (hvariational : exact_eigenvalue ≤ vqe_eigenvalue) :
    totalEnergy exact_eigenvalue energy_shift nuclear_repulsion_energy ≤
      totalEnergy vqe_eigenvalue energy_shift nuclear_repulsion_energy := by
  unfold totalEnergy
  linarith

/-- Witness for C8 at concrete energies. -/
theorem exact_total_le_vqe_total_witness :
    totalEnergy (-2) (1/2) (1/4) ≤ totalEnergy (-1) (1/2) (1/4) :=
  exact_total_le_vqe_total (-2) (-1) (1/2) (1/4) (by norm_num)

/-- C6 counterexample: with `freeze_list = [0]`, `remove_list = [0]` and
`num_orbitals = 6` — all raw entries in `[-6, 6)` — the normalized
remove list contains `-1`, which is not in
`[0, 2*num_orbitals - 2*len(freeze_list)) = [0, 10)`: the claim's range
guarantee fails without a side condition on the remove indices. -/
theorem normalized_remove_index_out_of_range :
    (∀ x ∈ ([0] : List Int), -6 ≤ x ∧ x < 6) ∧
    (∀ x ∈ ([0] : List Int), -6 ≤ x ∧ x < 6) ∧
    ¬ (∀ i ∈ (normalizeLists [0] [0] 6).2,
        0 ≤ i ∧ i < 2 * 6 - 2 * (([0] : List Int).length : Int)) := by
  decide

/-- C6 (amended): for raw lists with entries in
`[-num_orbitals, num_orbitals)`, every normalized freeze index is in
`[0, 2*num_orbitals)` unconditionally; and if in addition every remove
index refers, after the `% num_orbitals` normalization, to an orbital at
or above `len(freeze_list)` (i.e. the removed orbitals lie above the
frozen block in each spin sector — as in the notebook, which freezes the
lowest orbitals and removes higher virtual ones), then every normalized
remove index is in `[0, 2*num_orbitals - 2*len(freeze_list))`. -/
theorem normalized_indices_in_range
    (freeze_list remove_list : List Int) (num_orbitals : Int)
    (hn : 0 < num_orbitals)
    (hfreeze : ∀ x ∈ freeze_list, -num_orbitals ≤ x ∧ x < num_orbitals)
    (hremove : ∀ x ∈ remove_list, -num_orbitals ≤ x ∧ x < num_orbitals) :
    (∀ i ∈ (normalizeLists freeze_list remove_list num_orbitals).1,
        0 ≤ i ∧ i < 2 * num_orbitals) ∧
    ((∀ x ∈ remove_list,
        (freeze_list.length : Int) ≤ normIdx x num_orbitals) →
      ∀ i ∈ (normalizeLists freeze_list remove_list num_orbitals).2,
        0 ≤ i ∧ i < 2 * num_orbitals - 2 * (freeze_list.length : Int)) := by
  have hmod : ∀ x : Int,
      0 ≤ normIdx x num_orbitals ∧ normIdx x num_orbitals < num_orbitals := by
    intro x
    exact ⟨Int.emod_nonneg x (by omega), Int.emod_lt_of_pos x hn⟩
  constructor
  · intro i hi
    simp only [normalizeLists, List.mem_append, List.mem_map,
      List.map_map, Function.comp_apply] at hi
    rcases hi with ⟨x, _, rfl⟩ | ⟨x, _, rfl⟩
    · have := hmod x
      omega
    · have := hmod x
      omega
  · intro habove i hi
    simp only [normalizeLists, List.mem_append, List.mem_map,
      List.map_map, List.length_map, Function.comp_apply] at hi
    rcases hi with ⟨x, hx, rfl⟩ | ⟨x, hx, rfl⟩
    · have h1 := hmod x
      have h2 := habove x hx
      omega
    · have h1 := hmod x
      have h2 := habove x hx
      omega

/-- Witness for C6 (amended) at the notebook's configuration
`freeze_list = [0]`, `remove_list = [-3, -2]`, `num_orbitals = 6`. -/
theorem normalized_indices_in_range_witness :
    (∀ i ∈ (normalizeLists [0] [-3, -2] 6).1, 0 ≤ i ∧ i < 2 * 6) ∧
    (∀ i ∈ (normalizeLists [0] [-3, -2] 6).2,
        0 ≤ i ∧ i < 2 * 6 - 2 * (([0] : List Int).length : Int)) :=
  have h := normalized_indices_in_range [0] [-3, -2] 6 (by decide)
    (by decide) (by decide)
  ⟨h.1, h.2 (by decide)⟩

/-- End-to-end flow of the notebook over fallible delegated library
calls: `driver.run()`, the conditional `fermion_mode_freezing` and
`fermion_mode_elimination`, the qubit `mapping`, the exact eigensolver
`run` and the VQE `run`, chained exactly in the notebook's order with no
`try`/`except`, retry or fallback of its own.  Each delegated call may
fail with an error of type `ε`; a failing call short-circuits the rest
of the flow (the next Python statement never executes). -/
def chemistryFlow {ε Mol FOp QOp R V : Type}
    (driver_run : Except ε Mol)
    (buildFermionicOperator : Mol → FOp)
    (fermion_mode_freezing : FOp → List Int → Except ε (FOp × ℚ))
    (fermion_mode_elimination : FOp → List Int → Except ε FOp)
    (mappingCall : FOp → String → Except ε QOp)
    (exact_eigensolver_run : QOp → Except ε R)
    (vqe_run : QOp → Except ε V)
    (freeze_list remove_list : List Int) (map_type : String) :
    Except ε (R × V) :=
  Except.bind driver_run fun molecule =>
  Except.bind
    (if freeze_list.length > 0 then
      fermion_mode_freezing (buildFermionicOperator molecule) freeze_list
    else
      Except.ok (buildFermionicOperator molecule, (0 : ℚ))) fun frozen =>
  Except.bind
    (if remove_list.length > 0 then
      fermion_mode_elimination frozen.1 remove_list
    else
      Except.ok frozen.1) fun ferOp1 =>
  Except.bind (mappingCall ferOp1 map_type) fun qubitOp =>
  Except.bind (exact_eigensolver_run qubitOp) fun ret =>
  Except.bind (vqe_run qubitOp) fun results =>
  Except.ok (ret, results)

/-- C7: the notebook's own code never catches, transforms or recovers
from an error: whichever delegated library call fails first (driver run,
freezing, elimination, mapping, exact eigensolver, VQE), the flow's
result is exactly that call's error, unchanged, and no retry or fallback
path executes. -/
theorem errors_propagate_unchanged
    {ε Mol FOp QOp R V : Type}
    (driver_run : Except ε Mol)
    (buildFermionicOperator : Mol → FOp)
    (fermion_mode_freezing : FOp → List Int → Except ε (FOp × ℚ))
    (fermion_mode_elimination : FOp → List Int → Except ε FOp)
    (mappingCall : FOp → String → Except ε QOp)
    (exact_eigensolver_run : QOp → Except ε R)
    (vqe_run : QOp → Except ε V)
    (freeze_list remove_list : List Int) (map_type : String)
    (e : ε) (molecule : Mol) (frozen : FOp × ℚ) (ferOp1 : FOp)
    (qubitOp : QOp) (ret : R) :
    (driver_run = Except.error e →
      chemistryFlow driver_run buildFermionicOperator
        fermion_mode_freezing fermion_mode_elimination mappingCall
        exact_eigensolver_run vqe_run freeze_list remove_list map_type =
      Except.error e) ∧
    (driver_run = Except.ok molecule →
      freeze_list.length > 0 →
      fermion_mode_freezing (buildFermionicOperator molecule) freeze_list =
        Except.error e →
      chemistryFlow driver_run buildFermionicOperator
        fermion_mode_freezing fermion_mode_elimination mappingCall
        exact_eigensolver_run vqe_run freeze_list remove_list map_type =
      Except.error e) ∧
    (driver_run = Except.ok molecule →
      freeze_list.length > 0 →
      fermion_mode_freezing (buildFermionicOperator molecule) freeze_list =
        Except.ok frozen →
      remove_list.length > 0 →
      fermion_mode_elimination frozen.1 remove_list = Except.error e →
      chemistryFlow driver_run buildFermionicOperator
        fermion_mode_freezing fermion_mode_elimination mappingCall
        exact_eigensolver_run vqe_run freeze_list remove_list map_type =
      Except.error e) ∧
    (driver_run = Except.ok molecule →
      freeze_list.length > 0 →
      fermion_mode_freezing (buildFermionicOperator molecule) freeze_list =
        Except.ok frozen →
      remove_list.length > 0 →
      fermion_mode_elimination frozen.1 remove_list = Except.ok ferOp1 →
      mappingCall ferOp1 map_type = Except.error e →
      chemistryFlow driver_run buildFermionicOperator
        fermion_mode_freezing fermion_mode_elimination mappingCall
        exact_eigensolver_run vqe_run freeze_list remove_list map_type =
      Except.error e) ∧
    (driver_run = Except.ok molecule →
      freeze_list.length > 0 →
      fermion_mode_freezing (buildFermionicOperator molecule) freeze_list =
        Except.ok frozen →
      remove_list.length > 0 →
      fermion_mode_elimination frozen.1 remove_list = Except.ok ferOp1 →
      mappingCall ferOp1 map_type = Except.ok qubitOp →
      exact_eigensolver_run qubitOp = Except.error e →
      chemistryFlow driver_run buildFermionicOperator
        fermion_mode_freezing fermion_mode_elimination mappingCall
        exact_eigensolver_run vqe_run freeze_list remove_list map_type =
      Except.error e) ∧
    (driver_run = Except.ok molecule →
      freeze_list.length > 0 →
      fermion_mode_freezing (buildFermionicOperator molecule) freeze_list =
        Except.ok frozen →
      remove_list.length > 0 →
      fermion_mode_elimination frozen.1 remove_list = Except.ok ferOp1 →
      mappingCall ferOp1 map_type = Except.ok qubitOp →
      exact_eigensolver_run qubitOp = Except.ok ret →
      vqe_run qubitOp = Except.error e →
      chemistryFlow driver_run buildFermionicOperator
        fermion_mode_freezing fermion_mode_elimination mappingCall
        exact_eigensolver_run vqe_run freeze_list remove_list map_type =
      Except.error e) := by
  refine ⟨?_, ?_, ?_, ?_, ?_, ?_⟩
  · intro h1
    simp only [chemistryFlow, h1, Except.bind]
  · intro h1 hf h2
    simp only [chemistryFlow, h1, if_pos hf, h2, Except.bind]
  · intro h1 hf h2 hr h3
    simp only [chemistryFlow, h1, if_pos hf, h2, if_pos hr, h3, Except.bind]
  · intro h1 hf h2 hr h3 h4
    simp only [chemistryFlow, h1, if_pos hf, h2, if_pos hr, h3, h4,
      Except.bind]
  · intro h1 hf h2 hr h3 h4 h5
    simp only [chemistryFlow, h1, if_pos hf, h2, if_pos hr, h3, h4, h5,
      Except.bind]
  · intro h1 hf h2 hr h3 h4 h5 h6
    simp only [chemistryFlow, h1, if_pos hf, h2, if_pos hr, h3, h4, h5, h6,
      Except.bind]

/-- Witness for C7: a concrete flow in which the elimination call fails
with error 42 while everything before it succeeds; the flow's result is
exactly that error. -/
theorem errors_propagate_unchanged_witness :
    chemistryFlow (Except.ok ()) (fun _ => (0 : Int))
      (fun op _ => Except.ok (op, 0)) (fun _ _ => Except.error (42 : Nat))
      (fun _ _ => Except.ok (1 : Int)) (fun _ => Except.ok (2 : Int))
      (fun _ => Except.ok (3 : Int)) [0, 6] [2, 3, 7, 8] "parity" =
    Except.error 42 :=
  (errors_propagate_unchanged (Except.ok ()) (fun _ => (0 : Int))
    (fun op _ => Except.ok (op, 0)) (fun _ _ => Except.error (42 : Nat))
    (fun _ _ => Except.ok (1 : Int)) (fun _ => Except.ok (2 : Int))
    (fun _ => Except.ok (3 : Int)) [0, 6] [2, 3, 7, 8] "parity"
    42 () ((0 : Int), (0 : ℚ)) 0 1 2).2.2.1 rfl (by decide) rfl
    (by decide) rfl
